import Mathlib

/-!
Shallow embedding of the az-CLI wrapper library: the command-argument
builder, the parameter formatters, the error taxonomy, the raw and
structured executors, the authentication check, and a faithful model of
the derived JSON deserializer (field aliases, duplicate-field detection)
for the aliased data shapes.
-/

/-- Builder state accumulating command-line tokens (src/utils.rs, `AzCommandBuilder`). -/
structure AzCommandBuilder where
  args : List String
deriving DecidableEq, Repr

/-- Fresh builder with no tokens (`AzCommandBuilder::new`). -/
def AzCommandBuilder.new : AzCommandBuilder := ⟨[]⟩

/-- Appends one subcommand token (`AzCommandBuilder::subcommand`). -/
def AzCommandBuilder.subcommand (b : AzCommandBuilder) (cmd : String) : AzCommandBuilder :=
  ⟨b.args ++ [cmd]⟩

/-- Appends a required parameter: the tokens of the name and the value (`AzCommandBuilder::param`). -/
def AzCommandBuilder.param (b : AzCommandBuilder) (p v : String) : AzCommandBuilder :=
  ⟨b.args ++ [p, v]⟩

/-- Appends the pair only when the value is present (`AzCommandBuilder::optional_param`). -/
def AzCommandBuilder.optional_param (b : AzCommandBuilder) (p : String) (v : Option String) :
    AzCommandBuilder :=
  match v with
  | some x => ⟨b.args ++ [p, x]⟩
  | none => b

/-- Appends a bare switch token (`AzCommandBuilder::flag`). -/
def AzCommandBuilder.flag (b : AzCommandBuilder) (f : String) : AzCommandBuilder :=
  ⟨b.args ++ [f]⟩

/-- Appends the switch token only when the condition holds (`AzCommandBuilder::conditional_flag`). -/
def AzCommandBuilder.conditional_flag (b : AzCommandBuilder) (f : String) (c : Bool) :
    AzCommandBuilder :=
  if c then ⟨b.args ++ [f]⟩ else b

/-- Appends `--subscription id` when an id is given (`AzCommandBuilder::subscription`). -/
def AzCommandBuilder.subscription (b : AzCommandBuilder) (s : Option String) : AzCommandBuilder :=
  match s with
  | some x => ⟨b.args ++ ["--subscription", x]⟩
  | none => b

/-- Returns the accumulated token sequence (`AzCommandBuilder::build`). -/
def AzCommandBuilder.build (b : AzCommandBuilder) : List String := b.args

/-- Formats an optional parameter as a token list (src/utils.rs, `format_optional_param`). -/
def format_optional_param (param : String) (value : Option String) : List String :=
  match value with
  | some v => [param, v]
  | none => []

/-- Formats a boolean parameter as a token list (src/utils.rs, `format_bool_param`). -/
def format_bool_param (param : String) (value : Option Bool) : List String :=
  match value with
  | some true => [param]
  | some false => [param ++ "=false"]
  | none => []

/-- One builder method call, with its arguments. -/
inductive BuilderOp where
  | subcommand (cmd : String)
  | param (p v : String)
  | optionalParam (p : String) (v : Option String)
  | flagOp (f : String)
  | conditionalFlag (f : String) (c : Bool)
  | subscription (s : Option String)
deriving DecidableEq, Repr

/-- Applies one builder method call to a builder state. -/
def BuilderOp.apply (b : AzCommandBuilder) : BuilderOp → AzCommandBuilder
  | .subcommand c => b.subcommand c
  | .param p v => b.param p v
  | .optionalParam p v => b.optional_param p v
  | .flagOp f => b.flag f
  | .conditionalFlag f c => b.conditional_flag f c
  | .subscription s => b.subscription s

/-- The tokens a single builder method call appends, read off each method body. -/
def BuilderOp.tokens : BuilderOp → List String
  | .subcommand c => [c]
  | .param p v => [p, v]
  | .optionalParam p v =>
    match v with
    | some x => [p, x]
    | none => []
  | .flagOp f => [f]
  | .conditionalFlag f c => if c then [f] else []
  | .subscription s =>
    match s with
    | some x => ["--subscription", x]
    | none => []

theorem BuilderOp.apply_build (b : AzCommandBuilder) (op : BuilderOp) :
    (op.apply b).args = b.args ++ op.tokens := by
  cases op with
  | subcommand c => rfl
  | param p v => rfl
  | optionalParam p v =>
    cases v <;> simp [BuilderOp.apply, BuilderOp.tokens, AzCommandBuilder.optional_param]
  | flagOp f => rfl
  | conditionalFlag f c =>
    cases c <;> simp [BuilderOp.apply, BuilderOp.tokens, AzCommandBuilder.conditional_flag]
  | subscription s =>
    cases s <;> simp [BuilderOp.apply, BuilderOp.tokens, AzCommandBuilder.subscription]

theorem BuilderOp.foldl_apply_args (ops : List BuilderOp) (b : AzCommandBuilder) :
    (ops.foldl BuilderOp.apply b).args = b.args ++ (ops.map BuilderOp.tokens).flatten := by
  induction ops generalizing b with
  | nil => simp
  | cons op rest ih =>
    simp only [List.foldl_cons, List.map_cons, List.flatten_cons]
    rw [ih, BuilderOp.apply_build, List.append_assoc]

/-- Captured output of the child process (std::process::Output): the exit code
(`none` when the process was terminated by a signal), and the stdout and stderr
texts after lossy UTF-8 decoding. -/
structure ProcOutput where
  exitCode : Option Int
  stdout : String
  stderr : String
deriving DecidableEq, Repr

/-- Whether the exit status reports success (`ExitStatus::success`): exit code zero. -/
def ProcOutput.success (o : ProcOutput) : Bool :=
  o.exitCode == some 0

/-- The error taxonomy of the wrapper (src/error.rs, `AzureError`). -/
inductive AzureError where
  | cliNotFound
  | authentication
  | cliExecution (command error : String)
  | cliError (command stderr : String)
  | jsonParse (msg : String)
  | ioError (msg : String)
  | custom (msg : String)
deriving DecidableEq, Repr

/-- Builds an error from a failed command output (src/error.rs,
`AzureError::from_command_output`): a non-empty stderr yields `CliError` with
that stderr, an empty stderr yields `CliExecution` with a message embedding
the exit code (defaulting to -1 when no code is available). -/
def AzureError.from_command_output (command : String) (output : ProcOutput) : AzureError :=
  if output.stderr ≠ "" then
    .cliError command output.stderr
  else
    .cliExecution command
      ("Command failed with exit code: " ++ toString (output.exitCode.getD (-1)))

/-- The command string used in error messages: the executable name followed by
the space-joined argument tokens. -/
def azCommandString (args : List String) : String :=
  "az " ++ String.intercalate " " args

/-- Raw execution (src/utils.rs, `execute_az_command_raw`). The OS spawn is
modelled as its result: an IO error message, or the captured process output.
A spawn failure surfaces as an `Io` error (the `?` on `command.output()`); a
nonzero exit maps the output through `from_command_output`; a zero exit
returns stdout verbatim. -/
def execute_az_command_raw (args : List String) (spawn : Except String ProcOutput) :
    Except AzureError String :=
  match spawn with
  | .error e => .error (.ioError e)
  | .ok output =>
    if output.success then
      .ok output.stdout
    else
      .error (.from_command_output (azCommandString args) output)

/-- Structured execution (src/utils.rs, `execute_az_command`). The JSON decode
step is modelled as a function from the stdout text to a decode result. On a
raw success with empty stdout it fails with the "Empty output" `CliExecution`
error before any decode; otherwise a decode error becomes `JsonParse`. -/
def execute_az_command {α : Type} (decode : String → Except String α) (args : List String)
    (spawn : Except String ProcOutput) : Except AzureError α :=
  match execute_az_command_raw args spawn with
  | .error e => .error e
  | .ok output =>
    if output = "" then
      .error (.cliExecution (azCommandString args) "Empty output")
    else
      match decode output with
      | .error m => .error (.jsonParse m)
      | .ok v => .ok v

/-- Whether the pattern occurs at the start of the character list. -/
def charsStartWith : List Char → List Char → Bool
  | _, [] => true
  | [], _ :: _ => false
  | a :: s, b :: p => a == b && charsStartWith s p

/-- Whether the pattern occurs anywhere in the character list. -/
def charsContain (s pat : List Char) : Bool :=
  match s with
  | [] => charsStartWith [] pat
  | c :: rest => charsStartWith (c :: rest) pat || charsContain rest pat

/-- Substring test on strings, modelling `str::contains` with a string pattern. -/
def strContains (s pat : String) : Bool :=
  charsContain s.toList pat.toList

/-- Authentication check (src/utils.rs, `check_authentication`): runs
`az account show`; a `CliError` outcome whose stderr contains "az login" is
reclassified as `Authentication`, every other outcome passes through. -/
def check_authentication (spawn : Except String ProcOutput) : Except AzureError Unit :=
  match execute_az_command_raw ["account", "show"] spawn with
  | .ok _ => .ok ()
  | .error e =>
    match e with
    | .cliError command stderr =>
      if strContains stderr "az login" then .error .authentication
      else .error (.cliError command stderr)
    | _ => .error e

/-- Token sequence built by `CosmosCommands::delete_account` (src/commands/cosmos.rs). -/
def delete_account_args (name resource_group : String) (subscription_id : Option String) :
    List String :=
  ((((((AzCommandBuilder.new.subcommand "cosmosdb").subcommand "delete").param "--name"
    name).param "--resource-group" resource_group).flag "--yes").subscription
    subscription_id).build

/-- Token sequence built by `CosmosCommands::delete_sql_database` (src/commands/cosmos.rs). -/
def delete_sql_database_args (account_name resource_group database_name : String)
    (subscription_id : Option String) : List String :=
  ((((((((AzCommandBuilder.new.subcommand "cosmosdb").subcommand "sql").subcommand
    "database").subcommand "delete").param "--account-name" account_name).param
    "--resource-group" resource_group).param "--name" database_name).flag
    "--yes").subscription subscription_id |>.build

/-- Token sequence built by `CosmosCommands::delete_sql_container` (src/commands/cosmos.rs). -/
def delete_sql_container_args (account_name resource_group database_name container_name :
    String) : List String :=
  (((((((((AzCommandBuilder.new.subcommand "cosmosdb").subcommand "sql").subcommand
    "container").subcommand "delete").param "--account-name" account_name).param
    "--resource-group" resource_group).param "--database-name" database_name).param
    "--name" container_name).flag "--yes").build

/-- Token sequence built by `AccountCommands::delete_resource_group` (src/commands/account.rs). -/
def delete_resource_group_args (name : String) (subscription_id : Option String) :
    List String :=
  (((((AzCommandBuilder.new.subcommand "group").subcommand "delete").param "--name"
    name).flag "--yes").subscription subscription_id).build

/-- Token sequence built by `CosmosCommands::create_account` (src/commands/cosmos.rs):
the base chain, then the optional kind, the repeated capabilities, and the two
conditional boolean flags, each added only when its option is present. -/
def create_account_args (name resource_group location : String) (kind : Option String)
    (capabilities : Option (List String)) (enable_automatic_failover : Option Bool)
    (enable_multiple_write_locations : Option Bool) (subscription_id : Option String) :
    List String :=
  let b0 := (((((AzCommandBuilder.new.subcommand "cosmosdb").subcommand "create").param
    "--name" name).param "--resource-group" resource_group).param "--location"
    location).subscription subscription_id
  let b1 :=
    match kind with
    | some k => b0.param "--kind" k
    | none => b0
  let b2 :=
    match capabilities with
    | some caps =>
      caps.foldl (fun (acc : AzCommandBuilder) cap => acc.param "--capabilities" cap) b1
    | none => b1
  let b3 :=
    match enable_automatic_failover with
    | some auto_failover => b2.conditional_flag "--enable-automatic-failover" auto_failover
    | none => b2
  let b4 :=
    match enable_multiple_write_locations with
    | some multi_write => b3.conditional_flag "--enable-multiple-write-locations" multi_write
    | none => b3
  b4.build

/-- Token sequence built by `CosmosCommands::update_account` (src/commands/cosmos.rs). -/
def update_account_args (name resource_group : String)
    (enable_automatic_failover : Option Bool)
    (enable_multiple_write_locations : Option Bool) (subscription_id : Option String) :
    List String :=
  let b0 := ((((AzCommandBuilder.new.subcommand "cosmosdb").subcommand "update").param
    "--name" name).param "--resource-group" resource_group).subscription subscription_id
  let b1 :=
    match enable_automatic_failover with
    | some auto_failover => b0.conditional_flag "--enable-automatic-failover" auto_failover
    | none => b0
  let b2 :=
    match enable_multiple_write_locations with
    | some multi_write => b1.conditional_flag "--enable-multiple-write-locations" multi_write
    | none => b1
  b2.build

/-- JSON values; an object keeps its fields in document order, the order in
which a streaming deserializer visits them. -/
inductive Json where
  | null
  | bool (b : Bool)
  | num (n : Int)
  | str (s : String)
  | arr (elements : List Json)
  | obj (fields : List (String × Json))

/-- The `Subscription` data shape (src/models.rs): `display_name` has alias
`name`, `tenant_id` has alias `tenantId`, `is_default` has alias `isDefault`. -/
structure Subscription where
  id : String
  display_name : String
  state : String
  tenant_id : String
  is_default : Option Bool
deriving DecidableEq, Repr

/-- Decodes a JSON value as a string, as the derived deserializer does for a
`String` field. -/
def decodeString : Json → Except String String
  | .str s => .ok s
  | _ => .error "invalid type: expected a string"

/-- Decodes a JSON value as an optional boolean, as the derived deserializer
does for an `Option of bool` field: null becomes none. -/
def decodeOptionBool : Json → Except String (Option Bool)
  | .null => .ok none
  | .bool b => .ok (some b)
  | _ => .error "invalid type: expected a boolean or null"

/-- Fills a once-only field slot, as the derived map visitor does: a slot that
is already filled raises the duplicate-field error for the primary field name;
otherwise the value is decoded and stored. -/
def setOnce {β : Type} (slot : Option β) (fieldName : String) (dec : Json → Except String β)
    (v : Json) : Except String (Option β) :=
  match slot with
  | some _ => .error ("duplicate field " ++ fieldName)
  | none =>
    match dec v with
    | .error e => .error e
    | .ok x => .ok (some x)

/-- Partially-filled field slots while visiting a `Subscription` JSON map. -/
structure SubscriptionFields where
  id : Option String := none
  display_name : Option String := none
  state : Option String := none
  tenant_id : Option String := none
  is_default : Option (Option Bool) := none
deriving DecidableEq, Repr

/-- One step of the derived `Subscription` map visitor: matches the key against
each field's primary name and aliases (alias resolves to the same field slot),
ignores unknown keys, and raises the duplicate-field error on a refilled slot. -/
def subscriptionStep (st : SubscriptionFields) (entry : String × Json) :
    Except String SubscriptionFields :=
  if entry.fst = "id" then
    match setOnce st.id "id" decodeString entry.snd with
    | .error e => .error e
    | .ok slot => .ok { st with id := slot }
  else if entry.fst = "display_name" ∨ entry.fst = "name" then
    match setOnce st.display_name "display_name" decodeString entry.snd with
    | .error e => .error e
    | .ok slot => .ok { st with display_name := slot }
  else if entry.fst = "state" then
    match setOnce st.state "state" decodeString entry.snd with
    | .error e => .error e
    | .ok slot => .ok { st with state := slot }
  else if entry.fst = "tenant_id" ∨ entry.fst = "tenantId" then
    match setOnce st.tenant_id "tenant_id" decodeString entry.snd with
    | .error e => .error e
    | .ok slot => .ok { st with tenant_id := slot }
  else if entry.fst = "is_default" ∨ entry.fst = "isDefault" then
    match setOnce st.is_default "is_default" decodeOptionBool entry.snd with
    | .error e => .error e
    | .ok slot => .ok { st with is_default := slot }
  else
    .ok st

/-- Visits the object entries in document order, threading the field slots. -/
def subscriptionProcess (st : SubscriptionFields) :
    List (String × Json) → Except String SubscriptionFields
  | [] => .ok st
  | e :: rest =>
    match subscriptionStep st e with
    | .error m => .error m
    | .ok st2 => subscriptionProcess st2 rest

/-- Finishes the visit: each required field missing raises the missing-field
error, a missing optional field defaults to none. -/
def subscriptionFinish (st : SubscriptionFields) : Except String Subscription :=
  match st.id with
  | none => .error "missing field id"
  | some i =>
    match st.display_name with
    | none => .error "missing field display_name"
    | some dn =>
      match st.state with
      | none => .error "missing field state"
      | some s =>
        match st.tenant_id with
        | none => .error "missing field tenant_id"
        | some t => .ok ⟨i, dn, s, t, st.is_default.getD none⟩

/-- Decodes a JSON value into a `Subscription`, modelling the derived serde
deserializer of src/models.rs. -/
def Subscription.fromJson : Json → Except String Subscription
  | .obj fields =>
    match subscriptionProcess {} fields with
    | .error m => .error m
    | .ok st => subscriptionFinish st
  | _ => .error "invalid type: expected a map"

/-- The `ResourceGroupProperties` data shape (src/models.rs): the single field
`provisioning_state` has aliases `provisioningState` and `provisioning_state`. -/
structure ResourceGroupProperties where
  provisioning_state : String
deriving DecidableEq, Repr

/-- One step of the derived `ResourceGroupProperties` map visitor. -/
def rgPropertiesStep (st : Option String) (entry : String × Json) :
    Except String (Option String) :=
  if entry.fst = "provisioning_state" ∨ entry.fst = "provisioningState" then
    setOnce st "provisioning_state" decodeString entry.snd
  else
    .ok st

/-- Visits the object entries of a `ResourceGroupProperties` map in order. -/
def rgPropertiesProcess (st : Option String) :
    List (String × Json) → Except String (Option String)
  | [] => .ok st
  | e :: rest =>
    match rgPropertiesStep st e with
    | .error m => .error m
    | .ok st2 => rgPropertiesProcess st2 rest

/-- Decodes a JSON value into a `ResourceGroupProperties`. -/
def ResourceGroupProperties.fromJson : Json → Except String ResourceGroupProperties
  | .obj fields =>
    match rgPropertiesProcess none fields with
    | .error m => .error m
    | .ok none => .error "missing field provisioning_state"
    | .ok (some ps) => .ok ⟨ps⟩
  | _ => .error "invalid type: expected a map"

/-- C5: for every finite sequence of builder operations applied to a new
builder, `build` returns exactly the concatenation, in call order, of the
tokens each operation appends; no reordering, grouping, or deduplication. -/
theorem builder_order_preservation (ops : List BuilderOp) :
    (ops.foldl BuilderOp.apply AzCommandBuilder.new).build
      = (ops.map BuilderOp.tokens).flatten := by
  show (ops.foldl BuilderOp.apply AzCommandBuilder.new).args = _
  rw [BuilderOp.foldl_apply_args]
  rfl

/-- C6: the scenario `subcommand "group"`, `subcommand "list"`,
`subscription (some "sub-1")` builds to exactly
`["group", "list", "--subscription", "sub-1"]`; and on every builder state,
`subscription none` appends nothing while `subscription (some i)` appends
exactly the pair `--subscription`, `i`. -/
theorem builder_subscription_scenario :
    (((AzCommandBuilder.new.subcommand "group").subcommand "list").subscription
        (some "sub-1")).build = ["group", "list", "--subscription", "sub-1"]
    ∧ ∀ (b : AzCommandBuilder) (i : String),
        (b.subscription none).build = b.build
        ∧ (b.subscription (some i)).build = b.build ++ ["--subscription", i] :=
  ⟨rfl, fun _ _ => ⟨rfl, rfl⟩⟩

/-- C7: on every builder state, `optional_param p none` appends no token and
leaves the sequence unchanged, `optional_param p (some v)` appends exactly the
two tokens `p` then `v`; likewise for the `format_optional_param` helper. -/
theorem optional_param_semantics (b : AzCommandBuilder) (p v : String) :
    (b.optional_param p none).build = b.build
    ∧ (b.optional_param p (some v)).build = b.build ++ [p, v]
    ∧ format_optional_param p none = []
    ∧ format_optional_param p (some v) = [p, v] :=
  ⟨rfl, rfl, rfl, rfl⟩

/-- C8: every delete operation (Cosmos DB account, SQL database, SQL
container, resource group) builds a token sequence containing the
skip-confirmation token `--yes`, for all input argument values. -/
theorem delete_commands_pass_yes (n rg db c : String) (sub : Option String) :
    "--yes" ∈ delete_account_args n rg sub
    ∧ "--yes" ∈ delete_sql_database_args n rg db sub
    ∧ "--yes" ∈ delete_sql_container_args n rg db c
    ∧ "--yes" ∈ delete_resource_group_args n sub := by
  refine ⟨?_, ?_, ?_, ?_⟩ <;> cases sub <;>
    simp [delete_account_args, delete_sql_database_args, delete_sql_container_args,
      delete_resource_group_args, AzCommandBuilder.new, AzCommandBuilder.subcommand,
      AzCommandBuilder.param, AzCommandBuilder.flag, AzCommandBuilder.subscription,
      AzCommandBuilder.build]

/-- C10: in `create_account` and `update_account`, passing `some false` for
either boolean option produces exactly the token sequence of passing `none`
(the flag is dropped entirely); the explicit-negative form is what
`format_bool_param` would produce, which these operations never call. -/
theorem conditional_false_same_as_none (n rg loc p : String) (kind : Option String)
    (caps : Option (List String)) (e m : Option Bool) (sub : Option String) :
    create_account_args n rg loc kind caps (some false) m sub
      = create_account_args n rg loc kind caps none m sub
    ∧ create_account_args n rg loc kind caps e (some false) sub
      = create_account_args n rg loc kind caps e none sub
    ∧ update_account_args n rg (some false) m sub = update_account_args n rg none m sub
    ∧ update_account_args n rg e (some false) sub = update_account_args n rg e none sub
    ∧ format_bool_param p (some false) = [p ++ "=false"] :=
  ⟨rfl, rfl, rfl, rfl, rfl⟩

/-- C1 counterexample: two failed runs that differ only in the exit status
(1 versus 2) with the same non-empty stderr produce the same failure outcome,
so the outcome cannot carry the exit status; it is the `CliError` value holding
only the command string and the stderr text. -/
theorem raw_failure_drops_exit_status :
    execute_az_command_raw ["account", "show"] (.ok ⟨some 1, "", "boom"⟩)
      = execute_az_command_raw ["account", "show"] (.ok ⟨some 2, "", "boom"⟩)
    ∧ execute_az_command_raw ["account", "show"] (.ok ⟨some 1, "", "boom"⟩)
      = .error (.cliError "az account show" "boom") :=
  ⟨rfl, rfl⟩

/-- C1 amended: on a nonzero exit, raw execution fails with an outcome that
carries the attempted command string and either the stderr text verbatim (when
stderr is non-empty; the exit status is then dropped) or a message embedding
the exit status (when stderr is empty). -/
theorem raw_failure_outcome (args : List String) (out : ProcOutput)
    (h : out.success = false) :
    (out.stderr ≠ "" →
      execute_az_command_raw args (.ok out)
        = .error (.cliError (azCommandString args) out.stderr))
    ∧ (out.stderr = "" →
      execute_az_command_raw args (.ok out)
        = .error (.cliExecution (azCommandString args)
            ("Command failed with exit code: " ++ toString (out.exitCode.getD (-1))))) := by
  constructor
  · intro hs
    simp [execute_az_command_raw, h, AzureError.from_command_output, hs]
  · intro hs
    simp [execute_az_command_raw, h, AzureError.from_command_output, hs]

/-- Witness for the amended C1 theorem at a concrete nonzero-exit output. -/
theorem raw_failure_outcome_witness :
    execute_az_command_raw ["account", "show"] (.ok ⟨some 1, "", "deny"⟩)
      = .error (.cliError "az account show" "deny") :=
  (raw_failure_outcome ["account", "show"] ⟨some 1, "", "deny"⟩ rfl).1 (by decide)

/-- C3: when the child exits with status zero and empty stdout, structured
execution fails with the "Empty output" `CliExecution` error, which is a
different variant from the `JsonParse` decode-failure error, and the result
does not depend on the decoder: no decode is attempted. -/
theorem empty_output_distinct {α : Type} (dec dec2 : String → Except String α)
    (args : List String) (out : ProcOutput) (hs : out.success = true)
    (he : out.stdout = "") :
    execute_az_command dec args (.ok out)
      = .error (.cliExecution (azCommandString args) "Empty output")
    ∧ execute_az_command dec args (.ok out) = execute_az_command dec2 args (.ok out)
    ∧ ∀ c e m, AzureError.cliExecution c e ≠ AzureError.jsonParse m := by
  have h1 : execute_az_command dec args (.ok out)
      = .error (.cliExecution (azCommandString args) "Empty output") := by
    simp [execute_az_command, execute_az_command_raw, hs, he]
  have h2 : execute_az_command dec2 args (.ok out)
      = .error (.cliExecution (azCommandString args) "Empty output") := by
    simp [execute_az_command, execute_az_command_raw, hs, he]
  exact ⟨h1, h1.trans h2.symm, fun c e m hn => AzureError.noConfusion hn⟩

/-- Witness for the C3 theorem at a concrete zero-exit, empty-stdout output. -/
theorem empty_output_distinct_witness :
    execute_az_command (fun s => Except.ok s) ["account", "list"] (.ok ⟨some 0, "", ""⟩)
      = .error (.cliExecution "az account list" "Empty output") :=
  (empty_output_distinct (fun s => Except.ok s) (fun _ => Except.error "x")
    ["account", "list"] ⟨some 0, "", ""⟩ rfl rfl).1

theorem execute_az_command_raw_cases (args : List String)
    (spawn : Except String ProcOutput) :
    (∃ s, execute_az_command_raw args spawn = .ok s)
    ∨ (∃ m, execute_az_command_raw args spawn = .error (.ioError m))
    ∨ (∃ c st, execute_az_command_raw args spawn = .error (.cliError c st))
    ∨ (∃ c m, execute_az_command_raw args spawn = .error (.cliExecution c m)) := by
  rcases spawn with e | out
  · exact Or.inr (Or.inl ⟨e, rfl⟩)
  · by_cases h : out.success
    · exact Or.inl ⟨out.stdout, by simp [execute_az_command_raw, h]⟩
    · by_cases hs : out.stderr = ""
      · refine Or.inr (Or.inr (Or.inr ⟨azCommandString args,
          "Command failed with exit code: " ++ toString (out.exitCode.getD (-1)), ?_⟩))
        simp [execute_az_command_raw, h, AzureError.from_command_output, hs]
      · refine Or.inr (Or.inr (Or.inl ⟨azCommandString args, out.stderr, ?_⟩))
        simp [execute_az_command_raw, h, AzureError.from_command_output, hs]

/-- C4: the authentication check returns the `Authentication` error exactly
when the `az account show` run fails with a `CliError` outcome whose stderr
contains the substring "az login"; every other failure outcome passes through
unchanged, and a successful run returns success. -/
theorem check_authentication_classification (spawn : Except String ProcOutput) :
    (check_authentication spawn = .error .authentication ↔
      ∃ c st, execute_az_command_raw ["account", "show"] spawn = .error (.cliError c st)
        ∧ strContains st "az login" = true)
    ∧ (∀ s, execute_az_command_raw ["account", "show"] spawn = .ok s →
        check_authentication spawn = .ok ())
    ∧ (∀ e, execute_az_command_raw ["account", "show"] spawn = .error e →
        (∀ c st, e = AzureError.cliError c st → strContains st "az login" = false) →
        check_authentication spawn = .error e) := by
  have hcheck : ∀ r, execute_az_command_raw ["account", "show"] spawn = r →
      check_authentication spawn
        = (match r with
          | .ok _ => .ok ()
          | .error e =>
            match e with
            | .cliError command stderr =>
              if strContains stderr "az login" then .error .authentication
              else .error (.cliError command stderr)
            | _ => .error e) := by
    intro r hr
    unfold check_authentication
    rw [hr]
  rcases execute_az_command_raw_cases ["account", "show"] spawn with
    ⟨s, hr⟩ | ⟨m, hr⟩ | ⟨c, st, hr⟩ | ⟨c, m, hr⟩
  · refine ⟨?_, ?_, ?_⟩
    · rw [hcheck _ hr]
      simp [hr]
    · intro _ _
      rw [hcheck _ hr]
    · intro e he
      rw [hr] at he
      exact absurd he (by simp)
  · refine ⟨?_, ?_, ?_⟩
    · rw [hcheck _ hr]
      simp [hr]
    · intro s hs
      rw [hr] at hs
      exact absurd hs (by simp)
    · intro e he _
      rw [hcheck _ hr]
      rw [hr] at he
      injection he with he
      rw [← he]
  · by_cases hl : strContains st "az login" = true
    · refine ⟨?_, ?_, ?_⟩
      · constructor
        · intro _
          exact ⟨c, st, hr, hl⟩
        · intro _
          rw [hcheck _ hr]
          simp [hl]
      · intro s hs
        rw [hr] at hs
        exact absurd hs (by simp)
      · intro e he hno
        rw [hr] at he
        injection he with he
        have hfalse := hno c st he.symm
        rw [hl] at hfalse
        exact Bool.noConfusion hfalse
    · refine ⟨?_, ?_, ?_⟩
      · constructor
        · intro hx
          rw [hcheck _ hr] at hx
          simp [hl] at hx
        · rintro ⟨c2, st2, he2, hl2⟩
          rw [hr] at he2
          injection he2 with he2
          injection he2 with he2a he2b
          rw [← he2b] at hl2
          exact absurd hl2 hl
      · intro s hs
        rw [hr] at hs
        exact absurd hs (by simp)
      · intro e he _
        rw [hcheck _ hr]
        rw [hr] at he
        injection he with he
        rw [← he]
        simp [hl]
  · refine ⟨?_, ?_, ?_⟩
    · constructor
      · intro hx
        rw [hcheck _ hr] at hx
        exact absurd hx (by simp)
      · rintro ⟨c2, st2, he2, _⟩
        rw [hr] at he2
        injection he2 with he2
        exact AzureError.noConfusion he2
    · intro s hs
      rw [hr] at hs
      exact absurd hs (by simp)
    · intro e he _
      rw [hcheck _ hr]
      rw [hr] at he
      injection he with he
      rw [← he]

/-- Witness for the C4 theorem: a failed run whose stderr mentions "az login"
is classified as authentication-required, one with unrelated stderr passes
through as `CliError`, and a successful run returns success. -/
theorem check_authentication_classification_witness :
    check_authentication (.ok ⟨some 1, "", "please run az login first"⟩)
      = .error .authentication
    ∧ check_authentication (.ok ⟨some 1, "", "other failure"⟩)
      = .error (.cliError "az account show" "other failure")
    ∧ check_authentication (.ok ⟨some 0, "out", ""⟩) = .ok () := by
  refine ⟨?_, ?_, ?_⟩
  · exact (check_authentication_classification
      (.ok ⟨some 1, "", "please run az login first"⟩)).1.mpr
      ⟨"az account show", "please run az login first", rfl, by decide⟩
  · refine (check_authentication_classification (.ok ⟨some 1, "", "other failure"⟩)).2.2
      (.cliError "az account show" "other failure") rfl ?_
    intro c st h
    injection h with h1 h2
    rw [← h2]
    decide
  · exact (check_authentication_classification (.ok ⟨some 0, "out", ""⟩)).2.1
      "out" rfl

/-- C2 counterexample: a JSON object carrying both the canonical key
`display_name` and its alias `name` is rejected with a duplicate-field error;
decoding does not succeed with the canonical value, even with every required
field present. -/
theorem subscription_both_keys_counterexample :
    Subscription.fromJson (.obj [("id", .str "i"), ("display_name", .str "canonical"),
      ("name", .str "alias"), ("state", .str "Enabled"), ("tenant_id", .str "t")])
      = .error "duplicate field display_name" := rfl

theorem setOnce_ok_isSome {β : Type} (slot slot2 : Option β) (n : String)
    (dec : Json → Except String β) (v : Json) (h : setOnce slot n dec v = .ok slot2) :
    slot2.isSome = true := by
  cases slot with
  | some x => exact absurd h (by simp [setOnce])
  | none =>
    simp only [setOnce] at h
    cases hd : dec v with
    | error m => rw [hd] at h; exact Except.noConfusion h
    | ok x => rw [hd] at h; injection h with h; rw [← h]; rfl

theorem subscriptionStep_preserves_dn (st st2 : SubscriptionFields) (e : String × Json)
    (h : subscriptionStep st e = .ok st2) (hd : st.display_name.isSome = true) :
    st2.display_name.isSome = true := by
  obtain ⟨x, hx⟩ := Option.isSome_iff_exists.mp hd
  unfold subscriptionStep at h
  repeat' split at h
  all_goals
    first
      | exact Except.noConfusion h
      | (injection h with h2; rw [← h2]; exact hd)
      | (injection h with h2; rw [← h2]; simp_all [setOnce])

theorem subscriptionStep_dn_fills (st st2 : SubscriptionFields) (k : String) (v : Json)
    (hk : k = "display_name" ∨ k = "name") (h : subscriptionStep st (k, v) = .ok st2) :
    st2.display_name.isSome = true := by
  rcases hk with hk | hk <;> subst hk <;> simp only [subscriptionStep] at h <;>
  · simp at h
    cases hset : setOnce st.display_name "display_name" decodeString v with
    | error m => rw [hset] at h; exact Except.noConfusion h
    | ok slot =>
      rw [hset] at h
      injection h with h2
      rw [← h2]
      exact setOnce_ok_isSome _ _ _ _ _ hset

theorem subscriptionStep_dn_dup (st : SubscriptionFields) (k : String) (v : Json)
    (hk : k = "display_name" ∨ k = "name") (hd : st.display_name.isSome = true)
    (st2 : SubscriptionFields) : subscriptionStep st (k, v) ≠ .ok st2 := by
  obtain ⟨x, hx⟩ := Option.isSome_iff_exists.mp hd
  rcases hk with hk | hk <;> subst hk <;>
    simp [subscriptionStep, hx, setOnce]

theorem subscriptionProcess_dn_dup (fields : List (String × Json)) :
    ∀ st : SubscriptionFields, st.display_name.isSome = true →
    ("display_name" ∈ fields.map Prod.fst ∨ "name" ∈ fields.map Prod.fst) →
    ∀ st2, subscriptionProcess st fields ≠ .ok st2 := by
  induction fields with
  | nil =>
    intro st _ hmem st2
    simp at hmem
  | cons e rest ih =>
    intro st hd hmem st2 hok
    simp only [subscriptionProcess] at hok
    cases hstep : subscriptionStep st e with
    | error m => rw [hstep] at hok; exact Except.noConfusion hok
    | ok stm =>
      rw [hstep] at hok
      rcases e with ⟨k, v⟩
      by_cases hk : k = "display_name" ∨ k = "name"
      · exact subscriptionStep_dn_dup st k v hk hd stm hstep
      · have hmem2 : "display_name" ∈ rest.map Prod.fst ∨ "name" ∈ rest.map Prod.fst := by
          rcases hmem with hm | hm <;> simp only [List.map_cons, List.mem_cons] at hm
          · rcases hm with hm | hm
            · exact absurd (Or.inl hm.symm) hk
            · exact Or.inl hm
          · rcases hm with hm | hm
            · exact absurd (Or.inr hm.symm) hk
            · exact Or.inr hm
        exact ih stm (subscriptionStep_preserves_dn st stm (k, v) hstep hd) hmem2 st2 hok

theorem subscriptionProcess_both_dup (fields : List (String × Json)) :
    ∀ st : SubscriptionFields,
    "display_name" ∈ fields.map Prod.fst → "name" ∈ fields.map Prod.fst →
    ∀ st2, subscriptionProcess st fields ≠ .ok st2 := by
  induction fields with
  | nil =>
    intro st h1
    simp at h1
  | cons e rest ih =>
    intro st h1 h2 st2 hok
    simp only [subscriptionProcess] at hok
    cases hstep : subscriptionStep st e with
    | error m => rw [hstep] at hok; exact Except.noConfusion hok
    | ok stm =>
      rw [hstep] at hok
      rcases e with ⟨k, v⟩
      simp only [List.map_cons, List.mem_cons] at h1 h2
      by_cases hk1 : k = "display_name"
      · have hn : "name" ∈ rest.map Prod.fst := by
          rcases h2 with hm | hm
          · rw [hk1] at hm
            exact absurd hm (by decide)
          · exact hm
        have hfilled := subscriptionStep_dn_fills st stm k v (Or.inl hk1) hstep
        exact subscriptionProcess_dn_dup rest stm hfilled (Or.inr hn) st2 hok
      · by_cases hk2 : k = "name"
        · have hdn : "display_name" ∈ rest.map Prod.fst := by
            rcases h1 with hm | hm
            · rw [hk2] at hm
              exact absurd hm (by decide)
            · exact hm
          have hfilled := subscriptionStep_dn_fills st stm k v (Or.inr hk2) hstep
          exact subscriptionProcess_dn_dup rest stm hfilled (Or.inl hdn) st2 hok
        · have h1r : "display_name" ∈ rest.map Prod.fst := by
            rcases h1 with hm | hm
            · exact absurd hm.symm hk1
            · exact hm
          have h2r : "name" ∈ rest.map Prod.fst := by
            rcases h2 with hm | hm
            · exact absurd hm.symm hk2
            · exact hm
          exact ih stm h1r h2r st2 hok

/-- C2 amended: for every JSON object that contains both the canonical key
`display_name` and the alias key `name`, structured decoding of a
`Subscription` fails with an error rather than succeeding with the canonical
value. -/
theorem subscription_both_spellings_reject (fields : List (String × Json))
    (h1 : "display_name" ∈ fields.map Prod.fst) (h2 : "name" ∈ fields.map Prod.fst) :
    ∃ m, Subscription.fromJson (.obj fields) = .error m := by
  cases hp : subscriptionProcess {} fields with
  | error m =>
    refine ⟨m, ?_⟩
    simp only [Subscription.fromJson]
    rw [hp]
  | ok st => exact absurd hp (subscriptionProcess_both_dup fields {} h1 h2 st)

/-- Witness for the amended C2 theorem at a concrete two-key object. -/
theorem subscription_both_spellings_reject_witness :
    ∃ m, Subscription.fromJson
      (.obj [("display_name", Json.str "a"), ("name", Json.str "b")]) = .error m :=
  subscription_both_spellings_reject
    [("display_name", Json.str "a"), ("name", Json.str "b")] (by decide) (by decide)
